import Mathlib

/-!
Verification of the accident-tracker application core against its design
specification.  The embedding below follows `src/app/accidentRecords.js`
(the richer variant of the records screen, lines 13–79) and
`src/app/main.js`.  The two pieces of logic with structure are:

* the `onSnapshot` callback of the `AccidentRecords` component: per-record
  timestamp normalization, assembly of the published entry via object
  spread, and a descending sort by normalized timestamp;
* the `handleRespond` action: geo-link dispatch, a single-field status
  update, and a conditional notification write sharing one try/catch.

External collaborators (Firestore, `Linking`, `Alert`) are modelled as
explicit state and outcome oracles; JavaScript dynamic-value behaviour
(truthiness, `new Date` parsing, `Invalid Date`) is modelled explicitly.
-/

namespace AccidentTracker

/-! ## Data model

The `timestamp` field of a stored record arrives in one of three wire
forms (spec §3): a store-native timestamp object exposing a `toDate`
capability, an ISO-8601 string, or a numeric epoch value; it may also be
absent.  Points in time are epoch milliseconds (`Int`). -/

inductive TsField where
  /-- Store-native timestamp object; `toDate()` yields the instant `t`.
  As a JavaScript object it is always truthy. -/
  | tsObject (t : Int)
  /-- The field holds a string, to be given to `new Date(string)`. -/
  | tsString (s : String)
  /-- The field holds a number, to be given to `new Date(number)`. -/
  | tsNumber (n : Int)
  /-- The field is absent (`undefined`/`null`). -/
  | absent
deriving Repr, DecidableEq

/-- The `location` field of a stored record: either an object with numeric
`latitude` and `longitude`, or present but not such a pair, or absent. -/
inductive LocField where
  | coords (latitude longitude : Int)
  /-- Present (truthy) but `latitude`/`longitude` are not both numbers. -/
  | malformed
  | absent
deriving Repr, DecidableEq

/-- The data stored in one `accidentReports` document, as read by
`docSnap.data()`.  `dataId` is an `id` key occurring inside the stored
data itself, when one is present (distinct from the document identifier
assigned by the store). -/
structure ReportData where
  dataId : Option String := none
  location : LocField := .absent
  severity : String := ""
  accidentType : String := ""
  vehiclesInvolved : String := ""
  casualties : String := ""
  status : String := ""
  timestamp : TsField := .absent
  userId : Option String := none
deriving Repr, DecidableEq

/-- One document snapshot delivered by the subscription: the
store-assigned identifier plus the stored data. -/
structure DocSnap where
  id : String
  data : ReportData
deriving Repr, DecidableEq

/-- One entry of the published report list, as assembled by
`reports.push({ id: docSnap.id, ...data, timestamp: timestamp })`.
The normalized `timestamp` is `none` when `new Date` produced an
Invalid Date (malformed string). -/
structure ReportEntry where
  id : String
  location : LocField
  severity : String
  accidentType : String
  vehiclesInvolved : String
  casualties : String
  status : String
  userId : Option String
  timestamp : Option Int
deriving Repr, DecidableEq

/-! ## JavaScript date-string semantics

`new Date(string)` parses the ECMAScript date-time string format
`YYYY-MM-DD[THH:MM:SS[.sss]Z]`; an unparseable string yields an Invalid
Date, modelled as `none`.  Days are converted to epoch days with the
standard civil-from-days arithmetic over the proleptic Gregorian
calendar. -/

/-- Fold a digit list into a number. -/
def digitsToNat (cs : List Char) : Nat :=
  cs.foldl (fun n c => 10 * n + (c.toNat - 48)) 0

/-- Read exactly `n` decimal digits from the front of the input. -/
def parseNDigits (n : Nat) (cs : List Char) : Option (Nat × List Char) :=
  let pre := cs.take n
  if pre.length = n ∧ pre.all Char.isDigit then
    some (digitsToNat pre, cs.drop n)
  else
    none

/-- Consume one expected character. -/
def parseChar (c : Char) : List Char → Option (List Char)
  | c' :: cs => if c' = c then some cs else none
  | [] => none

/-- Gregorian leap-year rule. -/
def isLeap (y : Int) : Bool :=
  (y % 4 == 0 && y % 100 != 0) || y % 400 == 0

/-- Number of days in month `m` of year `y`. -/
def daysInMonth (y : Int) (m : Nat) : Nat :=
  if m = 2 then (if isLeap y then 29 else 28)
  else if m = 4 ∨ m = 6 ∨ m = 9 ∨ m = 11 then 30
  else 31

/-- Days since the epoch 1970-01-01 of the civil date `y-m-d`
(era-based Gregorian conversion; `ediv` is floor division here since the
divisors are positive). -/
def daysFromCivil (y : Int) (m d : Nat) : Int :=
  let y' : Int := if m ≤ 2 then y - 1 else y
  let era : Int := y'.ediv 400
  let yoe : Int := y' - era * 400
  let mp : Int := if 2 < m then (m : Int) - 3 else (m : Int) + 9
  let doy : Int := (153 * mp + 2).ediv 5 + (d : Int) - 1
  let doe : Int := yoe * 365 + yoe.ediv 4 - yoe.ediv 100 + doy
  era * 146097 + doe - 719468

/-- `new Date(string)` on the ECMAScript date-time string format,
returning epoch milliseconds, or `none` for an Invalid Date. -/
def jsDateOfString (s : String) : Option Int := do
  let cs := s.toList
  let (y, cs) ← parseNDigits 4 cs
  let cs ← parseChar '-' cs
  let (m, cs) ← parseNDigits 2 cs
  let cs ← parseChar '-' cs
  let (d, cs) ← parseNDigits 2 cs
  if m < 1 ∨ 12 < m ∨ d < 1 ∨ daysInMonth (y : Int) m < d then none
  else
    let date : Int := daysFromCivil (y : Int) m d * 86400000
    match cs with
    | [] => some date
    | 'T' :: cs => do
      let (hh, cs) ← parseNDigits 2 cs
      let cs ← parseChar ':' cs
      let (mi, cs) ← parseNDigits 2 cs
      let cs ← parseChar ':' cs
      let (ss, cs) ← parseNDigits 2 cs
      let (ms, cs) ←
        match cs with
        | '.' :: cs' => parseNDigits 3 cs'
        | _ => some (0, cs)
      let cs ← parseChar 'Z' cs
      match cs with
      | [] =>
        if 23 < hh ∨ 59 < mi ∨ 59 < ss then none
        else some (date + ((hh * 3600000 + mi * 60000 + ss * 1000 + ms : Nat) : Int))
      | _ => none
    | _ => none

/-- JavaScript truthiness of a `timestamp` field value: objects are
truthy, a string is truthy iff non-empty, a number is truthy iff
nonzero, an absent value is falsy. -/
def tsTruthy : TsField → Bool
  | .tsObject _ => true
  | .tsString s => s ≠ ""
  | .tsNumber n => n ≠ 0
  | .absent => false

/-- `new Date(x)` applied to the raw field value, as in the `else if`
branch of the callback: a string is parsed, a number is taken as epoch
milliseconds.  (`new Date("")` is an Invalid Date; this case is
unreachable in the callback because `""` is falsy.) -/
def jsDateOf : TsField → Option Int
  | .tsObject t => some t
  | .tsString s => jsDateOfString s
  | .tsNumber n => some n
  | .absent => none

/-! ## ReportStream: the `onSnapshot` callback -/

/-- Timestamp normalization of the `onSnapshot` callback
(accidentRecords.js lines 19–28), with `now` the current time:

* `data.timestamp && typeof data.timestamp.toDate === 'function'` —
  only the store-native object exposes `toDate`, and it is truthy;
* `else if (data.timestamp)` — any other truthy value goes through
  `new Date(...)`;
* `else` — fall back to the current time. -/
def normalizeTimestamp (now : Int) (f : TsField) : Option Int :=
  match f with
  | .tsObject t => some t
  | f => if tsTruthy f then jsDateOf f else some now

/-- Assembly of one published entry,
`{ id: docSnap.id, ...data, timestamp: timestamp }`: the spread of
`data` comes after the `id` key, so an `id` field inside the stored data
overwrites the document identifier; the explicit `timestamp` key comes
after the spread, so the normalized value overwrites any raw
`data.timestamp`. -/
def toEntry (now : Int) (d : DocSnap) : ReportEntry :=
  { id := match d.data.dataId with
          | some v => v
          | none => d.id
    location := d.data.location
    severity := d.data.severity
    accidentType := d.data.accidentType
    vehiclesInvolved := d.data.vehiclesInvolved
    casualties := d.data.casualties
    status := d.data.status
    userId := d.data.userId
    timestamp := normalizeTimestamp now d.data.timestamp }

/-- Ordering key used by the sort comparator: a valid normalized
timestamp compares by its instant; an Invalid Date (`none`) is placed
below every instant.  For invalid dates the JavaScript comparator
`b.timestamp - a.timestamp` returns `NaN`, the comparator is then
inconsistent and ECMAScript leaves the whole resulting order
implementation-defined; the model resolves this by fiat, ordering
invalid entries last.  On lists without invalid entries the comparator
is consistent and this order coincides with what every conforming
implementation produces; sortedness conclusions are therefore only
stated under that hypothesis, while length and permutation facts hold
under any resolution. -/
def keyLe : Option Int → Option Int → Bool
  | none, _ => true
  | some _, none => false
  | some x, some y => decide (x ≤ y)

/-- The sort comparator `(a, b) => b.timestamp - a.timestamp`: `a` may
precede `b` exactly when the difference is non-positive, i.e. when
`b`'s key is at most `a`'s. -/
def tsDescLe (a b : ReportEntry) : Bool :=
  keyLe b.timestamp a.timestamp

/-- The full body of the `onSnapshot` callback: map every document
snapshot to a published entry, then
`reports.sort((a, b) => b.timestamp - a.timestamp)` (a stable sort,
descending by normalized timestamp).  The mergeSort model agrees with
the source's sort whenever every entry's normalized timestamp is valid;
for snapshots containing an Invalid Date the source's output order is
implementation-defined (see `keyLe`) and only the length and
permutation behaviour of the model is relied upon. -/
def processSnapshot (now : Int) (docs : List DocSnap) : List ReportEntry :=
  (docs.map (toEntry now)).mergeSort tsDescLe

/-- `setAccidentReports(reports)`: the previously published list is
discarded wholesale and replaced by the freshly computed one. -/
def publishSnapshot (_prev : List ReportEntry) (now : Int)
    (docs : List DocSnap) : List ReportEntry :=
  processSnapshot now docs

/-! ## ResponseAction: `handleRespond`

The store is explicit state: the `accidentReports` collection is an
association list from document identifier to stored data, and each
notification write appends one `(userId, document)` pair, representing a
new document in `users/{userId}/notifications`.  Outcomes of the three
external effects that can fail (`Linking.openURL`, `updateDoc`,
`addDoc`) are supplied by an oracle `Env`, each carrying the error
message when it fails. -/

/-- One document of a user's `notifications` sub-collection, as written
by `addDoc` in `handleRespond`. -/
structure NotificationDoc where
  message : String
  timestamp : String
  read : Bool
  type : String
deriving Repr, DecidableEq

/-- The relevant remote state: the `accidentReports` collection and all
notification documents, each tagged with the user whose sub-collection
contains it. -/
structure Store where
  reports : List (String × ReportData)
  notifications : List (String × NotificationDoc)
deriving Repr, DecidableEq

/-- Outcome oracle for one invocation of `handleRespond`: for each
fallible external call, `none` means it succeeds, `some msg` means it
fails with error message `msg`.  `nowIso` is the value of
`new Date().toISOString()` at the time of the call. -/
structure Env where
  linkOpenFails : Option String := none
  updateFails : Option String := none
  addFails : Option String := none
  nowIso : String := ""
deriving Repr, DecidableEq

/-- The user-visible alerts `handleRespond` can raise. -/
inductive Alert where
  /-- `Alert.alert('Error', 'Failed to open Google Maps: ' + err.message)` -/
  | linkError (msg : String)
  /-- `Alert.alert('Location Error', 'Invalid location data for this accident.')` -/
  | locationError
  /-- `Alert.alert('Update Error', 'Could not update status: ' + error.message)` -/
  | updateError (msg : String)
deriving Repr, DecidableEq

/-- Result of one `handleRespond` invocation: the URL passed to
`Linking.openURL` (if any), the alerts raised, and the resulting store
state. -/
structure RespondOut where
  openedUrl : Option String
  alerts : List Alert
  store : Store
deriving Repr, DecidableEq

/-- The fixed responder-acknowledgement notification message. -/
def respMsg : String :=
  "🚑 Help is on the way! A driver has responded to your accident report."

/-- Truthiness of `item.userId`: present and non-empty. -/
def userTruthy : Option String → Bool
  | some s => s ≠ ""
  | none => false

/-- The guard `item.location && typeof item.location.latitude === 'number'
&& typeof item.location.longitude === 'number'`. -/
def locValid : LocField → Bool
  | .coords _ _ => true
  | _ => false

/-- First half of `handleRespond` (lines 47–55): construct the maps
deep link and ask the platform to open it when the location is a pair of
numbers, else raise the location-error alert.  A failure of `openURL`
only raises an alert. -/
def linkPhase (env : Env) (item : ReportEntry) : Option String × List Alert :=
  match item.location with
  | .coords la lo =>
    let url := "https://www.google.com/maps/search/?api=1&query=" ++
      toString la ++ "," ++ toString lo
    (some url,
      match env.linkOpenFails with
      | some m => [.linkError m]
      | none => [])
  | _ => (none, [.locationError])

/-- `updateDoc(reportRef, { status: 'Help on way' })`: a field-wise merge
into the existing document — only `status` is written, every other field
is carried over unchanged. -/
def updateStatusIn (reports : List (String × ReportData)) (id : String) :
    List (String × ReportData) :=
  reports.map fun p =>
    if p.1 = id then (p.1, { p.2 with status := "Help on way" }) else p

/-- Second half of `handleRespond` (lines 58–78), the single try/catch:
await the status update; if it throws, catch and raise one update-error
alert.  Otherwise, when `item.userId` is truthy, await the notification
`addDoc`; if that throws, catch and raise one update-error alert,
leaving the already-applied status update in place. -/
def writePhase (env : Env) (store : Store) (item : ReportEntry) :
    Store × List Alert :=
  match env.updateFails with
  | some m => (store, [.updateError m])
  | none =>
    let store1 : Store := { store with reports := updateStatusIn store.reports item.id }
    if userTruthy item.userId then
      match env.addFails with
      | some m => (store1, [.updateError m])
      | none =>
        ({ store1 with
            notifications := store1.notifications ++
              [(item.userId.getD "",
                { message := respMsg
                  timestamp := env.nowIso
                  read := false
                  type := "accident_response" })] }, [])
    else
      (store1, [])

/-- The whole `handleRespond` action (lines 46–79): the link phase runs
first and never prevents the write phase; the write phase never depends
on the link outcome. -/
def handleRespond (env : Env) (store : Store) (item : ReportEntry) :
    RespondOut :=
  let lk := linkPhase env item
  let wr := writePhase env store item
  { openedUrl := lk.1, alerts := lk.2 ++ wr.2, store := wr.1 }

/-! ## Derived observations and specification-worded definitions -/

/-- Status of the report with identifier `id` in the store, when one
exists. -/
def statusOf (st : Store) (id : String) : Option String :=
  (st.reports.find? fun p => p.1 == id).map fun p => p.2.status

/-- Number of update-error alerts among the raised alerts. -/
def countUpdateErrors (as : List Alert) : Nat :=
  (as.filter fun a =>
    match a with
    | .updateError _ => true
    | _ => false).length

/-- Timestamp normalization as the specification words it (§4.1): (a)
use the convert-to-date capability when the field exposes one; (b) else,
when the field is present, parse it as a date from an ISO string or a
numeric epoch; (c) else substitute the current time.  To be compared
with `normalizeTimestamp`, which embeds the source. -/
def specNormalize (now : Int) : TsField → Option Int
  | .tsObject t => some t
  | .tsString s => jsDateOfString s
  | .tsNumber n => some n
  | .absent => some now

/-! ## Concrete fixtures for witnesses -/

/-- A well-formed report entry: valid coordinates, a submitting user. -/
def itemW : ReportEntry :=
  { id := "r1", location := .coords 1 2, severity := "High",
    accidentType := "Collision", vehiclesInvolved := "2", casualties := "1",
    status := "Pending", userId := some "u1", timestamp := some 100 }

/-- A report entry with a malformed location and no submitting user. -/
def itemNoUser : ReportEntry :=
  { itemW with id := "r2", userId := none, location := .malformed }

/-- A store holding the two reports above and no notification yet. -/
def storeW : Store :=
  { reports :=
      [("r1", { status := "Pending", userId := some "u1",
                timestamp := .tsNumber 100, location := .coords 1 2 }),
       ("r2", { status := "Pending", location := .malformed })],
    notifications := [] }

/-- An oracle on which every external call succeeds. -/
def envW : Env := { nowIso := "2024-01-01T00:00:00.000Z" }

/-- An oracle on which the notification `addDoc` fails. -/
def envAddFail : Env := { envW with addFails := some "quota exceeded" }

/-- An oracle on which the status `updateDoc` fails. -/
def envUpdFail : Env := { envW with updateFails := some "network down" }

/-- A snapshot with two parseable timestamps, one falsy timestamp and
one absent timestamp. -/
def docsW : List DocSnap :=
  [⟨"a", { timestamp := .tsNumber 3 }⟩,
   ⟨"b", { timestamp := .tsString "2024-01-01T00:00:00Z" }⟩,
   ⟨"c", { timestamp := .tsNumber 0 }⟩,
   ⟨"d", {}⟩]

/-- A document snapshot whose stored data carries its own `id` key. -/
def docShadow : DocSnap := ⟨"store-id", { dataId := some "inner-id" }⟩

/-! ## Helper lemmas -/

theorem keyLe_trans (a b c : Option Int) (h1 : keyLe a b = true)
    (h2 : keyLe b c = true) : keyLe a c = true := by
  cases a <;> cases b <;> cases c <;> simp_all [keyLe] <;> omega

theorem keyLe_total (a b : Option Int) : (keyLe a b || keyLe b a) = true := by
  cases a <;> cases b <;> simp [keyLe] <;> omega

/-- With a successful status update, the reports held by the resulting
store are obtained by the single-field merge on the target document. -/
theorem respond_reports_eq (env : Env) (store : Store) (item : ReportEntry)
    (h : env.updateFails = none) :
    (handleRespond env store item).store.reports =
      updateStatusIn store.reports item.id := by
  simp only [handleRespond, writePhase, h]
  by_cases hu : userTruthy item.userId <;> simp [hu] <;> cases env.addFails <;> simp

/-- The store resulting from `handleRespond` is the write phase's store:
the link phase never touches the store. -/
theorem respond_store_eq (env : Env) (store : Store) (item : ReportEntry) :
    (handleRespond env store item).store = (writePhase env store item).1 := rfl

/-- The alerts raised by the link phase never include an update error. -/
theorem linkPhase_no_updateError (env : Env) (item : ReportEntry) (m : String) :
    Alert.updateError m ∉ (linkPhase env item).2 := by
  unfold linkPhase
  cases item.location <;> cases env.linkOpenFails <;> simp

/-- The single-field merge rewrites exactly the looked-up record. -/
theorem find?_updateStatusIn (rs : List (String × ReportData)) (id : String) :
    ((updateStatusIn rs id).find? fun p => p.1 == id) =
      ((rs.find? fun p => p.1 == id).map
        fun p => (p.1, { p.2 with status := "Help on way" })) := by
  induction rs with
  | nil => rfl
  | cons p rs ih =>
    by_cases hp : p.1 = id
    · simp [updateStatusIn, List.find?_cons, hp]
    · simp only [updateStatusIn, List.map_cons] at ih ⊢
      simp [List.find?_cons, hp, ih]

/-- After the single-field merge, the target record's status reads
`"Help on way"`. -/
theorem statusOf_update (store : Store) (id : String)
    (hex : (statusOf store id).isSome = true) :
    statusOf { store with reports := updateStatusIn store.reports id } id =
      some "Help on way" := by
  unfold statusOf at hex ⊢
  simp only []
  rw [find?_updateStatusIn]
  cases hfind : store.reports.find? fun p => p.1 == id with
  | none => rw [hfind] at hex; simp at hex
  | some p => simp

/-- With both writes succeeding and a truthy `userId`, `handleRespond`
appends exactly one notification document for that user. -/
theorem respond_notifications_append (env : Env) (store : Store)
    (item : ReportEntry) (hU : env.updateFails = none)
    (hA : env.addFails = none) (hu : userTruthy item.userId = true) :
    (handleRespond env store item).store.notifications =
      store.notifications ++
        [(item.userId.getD "",
          { message := respMsg, timestamp := env.nowIso,
            read := false, type := "accident_response" })] := by
  simp [handleRespond, writePhase, hU, hA, hu]

/-- After a successful status update, an existing target report's
status reads `"Help on way"`. -/
theorem respond_statusOf (env : Env) (store : Store) (item : ReportEntry)
    (hU : env.updateFails = none)
    (hex : (statusOf store item.id).isSome = true) :
    statusOf (handleRespond env store item).store item.id =
      some "Help on way" := by
  have hre := respond_reports_eq env store item hU
  have hupd := statusOf_update store item.id hex
  unfold statusOf at hupd ⊢
  rw [hre]
  simpa using hupd

/-! ## The claims -/

/-- C1, counterexample: a record whose timestamp field is the present
numeric epoch `0` is falsy in JavaScript, so the callback substitutes
the current time (here `5`) instead of parsing the number as the epoch
instant, contradicting clause (b) of the claimed precedence. -/
theorem normalize_precedence_cex :
    normalizeTimestamp 5 (.tsNumber 0) = some 5 ∧
    specNormalize 5 (.tsNumber 0) = some 0 ∧
    normalizeTimestamp 5 (.tsNumber 0) ≠ specNormalize 5 (.tsNumber 0) := by
  decide

/-- C1 (amended): for every record whose timestamp field is truthy (a
store-native object, a non-empty string, or a nonzero number) or
absent, the published timestamp follows the claimed precedence — the
convert-to-date capability when exposed, else date parsing of the
present field, else the current time; a present but falsy timestamp
(numeric `0` or empty string) also falls back to the current time.  A
malformed timestamp never causes records to be dropped: the published
list always has exactly one entry per document of the snapshot. -/
theorem normalize_precedence (now : Int) (f : TsField)
    (h : tsTruthy f = true ∨ f = .absent) :
    normalizeTimestamp now f = specNormalize now f ∧
    ∀ docs : List DocSnap, (processSnapshot now docs).length = docs.length := by
  constructor
  · rcases h with h | h
    · cases f <;> simp_all [normalizeTimestamp, specNormalize, tsTruthy, jsDateOf]
    · subst h; rfl
  · intro docs
    simp [processSnapshot]

/-- C1, witness at a truthy numeric timestamp and the four-record
snapshot (which contains a falsy and an absent timestamp, neither of
which is dropped). -/
theorem normalize_precedence_witness :
    normalizeTimestamp 5 (.tsNumber 7) = specNormalize 5 (.tsNumber 7) ∧
    (processSnapshot 5 docsW).length = docsW.length :=
  ⟨(normalize_precedence 5 (.tsNumber 7) (Or.inl (by decide))).1,
   (normalize_precedence 5 (.tsNumber 7) (Or.inl (by decide))).2 docsW⟩

set_option linter.unusedVariables false in
/-- C2: for every snapshot all of whose records normalize to a valid
instant — the case in which the comparator
`(a, b) => b.timestamp - a.timestamp` is consistent and ECMAScript
guarantees the sorted order; an Invalid Date would make the
comparator return `NaN` and leave the order implementation-defined —
the published list is ordered descending by normalized timestamp: for
every earlier/later pair of entries, the later entry's instant is at
most the earlier one's.  The published list wholly replaces the
previous one: the result never depends on the previously published
list. -/
theorem snapshot_sorted_descending (now : Int) (docs : List DocSnap)
    (hvalid : ∀ d ∈ docs,
      (normalizeTimestamp now d.data.timestamp).isSome = true) :
    (processSnapshot now docs).Pairwise
      (fun a b => ∀ x y,
        a.timestamp = some x → b.timestamp = some y → y ≤ x) ∧
    ∀ prevA prevB : List ReportEntry,
      publishSnapshot prevA now docs = publishSnapshot prevB now docs := by
  refine ⟨?_, fun _ _ => rfl⟩
  have h := @List.sorted_mergeSort ReportEntry tsDescLe
    (fun a b c h1 h2 => keyLe_trans c.timestamp b.timestamp a.timestamp h2 h1)
    (fun a b => keyLe_total b.timestamp a.timestamp)
    (docs.map (toEntry now))
  refine h.imp ?_
  intro a b hab x y hx hy
  simp only [tsDescLe] at hab
  rw [hx, hy] at hab
  simpa [keyLe] using hab

/-- C2, witness: the four-record snapshot, every record of which
normalizes to a valid instant, published against two different
previous lists. -/
theorem snapshot_sorted_descending_witness :
    (processSnapshot 5 docsW).Pairwise
      (fun a b => ∀ x y,
        a.timestamp = some x → b.timestamp = some y → y ≤ x) ∧
    publishSnapshot [] 5 docsW = publishSnapshot [itemW] 5 docsW :=
  ⟨(snapshot_sorted_descending 5 docsW (by decide)).1,
   (snapshot_sorted_descending 5 docsW (by decide)).2 [] [itemW]⟩

/-- C7, counterexample: the instant `0` (1970-01-01T00:00:00Z) is
representable in all three wire forms, but its numeric form `0` is
falsy and normalizes to the current time (here `1`), while the
store-native and string forms normalize to the instant itself — the
three representations do not agree at this instant. -/
theorem timestamp_representation_cex :
    normalizeTimestamp 1 (.tsObject 0) = some 0 ∧
    jsDateOfString "1970-01-01T00:00:00.000Z" = some 0 ∧
    normalizeTimestamp 1 (.tsString "1970-01-01T00:00:00.000Z") = some 0 ∧
    normalizeTimestamp 1 (.tsNumber 0) = some 1 := by
  decide

/-- C7 (amended): for every instant with nonzero epoch value,
normalization of each of its three wire representations — the
store-native object, any ISO string parsing to the instant, and the
numeric epoch — yields that same instant.  The zero-epoch instant is
excluded: its numeric form is falsy and falls back to the current
time. -/
theorem timestamp_representation_agreement (now t : Int) (s : String)
    (ht : t ≠ 0) (hs : jsDateOfString s = some t) :
    normalizeTimestamp now (.tsObject t) = some t ∧
    normalizeTimestamp now (.tsNumber t) = some t ∧
    normalizeTimestamp now (.tsString s) = some t := by
  have hne : s ≠ "" := by
    intro hcon
    rw [hcon] at hs
    exact Option.noConfusion hs
  refine ⟨rfl, ?_, ?_⟩
  · simp [normalizeTimestamp, tsTruthy, jsDateOf, ht]
  · simp [normalizeTimestamp, tsTruthy, jsDateOf, hne, hs]

/-- C7, witness at the instant 2024-01-01T00:00:00Z. -/
theorem timestamp_representation_agreement_witness :
    normalizeTimestamp 5 (.tsObject 1704067200000) = some 1704067200000 ∧
    normalizeTimestamp 5 (.tsNumber 1704067200000) = some 1704067200000 ∧
    normalizeTimestamp 5 (.tsString "2024-01-01T00:00:00Z") = some 1704067200000 :=
  timestamp_representation_agreement 5 1704067200000 "2024-01-01T00:00:00Z"
    (by decide) (by decide)

/-- C3: when the report carries a non-empty `userId` and both writes
succeed, exactly one notification document is created in that user's
sub-collection (`users/{uid}/notifications`, modelled by the pair's
first component), carrying the fixed responder-acknowledgement message,
the current time as an ISO string, `read = false` and
`type = "accident_response"`; when `userId` is absent, no notification
document is ever created — whatever the outcome of the status write —
and, the status write succeeding, no update-error is reported. -/
theorem respond_notification (env : Env) (store : Store) (item : ReportEntry) :
    (∀ uid, item.userId = some uid → uid ≠ "" →
      env.updateFails = none → env.addFails = none →
      (handleRespond env store item).store.notifications =
        store.notifications ++
          [(uid, { message := respMsg, timestamp := env.nowIso,
                   read := false, type := "accident_response" })]) ∧
    (item.userId = none →
      (handleRespond env store item).store.notifications =
        store.notifications ∧
      (env.updateFails = none →
        ∀ m, Alert.updateError m ∉ (handleRespond env store item).alerts)) := by
  constructor
  · intro uid h1 h2 h3 h4
    have hu : userTruthy item.userId = true := by simp [userTruthy, h1, h2]
    rw [respond_notifications_append env store item h3 h4 hu, h1]
    rfl
  · intro h0
    have hu : userTruthy item.userId = false := by simp [userTruthy, h0]
    constructor
    · cases hU : env.updateFails with
      | some m => simp [handleRespond, writePhase, hU]
      | none => simp [handleRespond, writePhase, hU, hu]
    · intro h5 m
      have halt : (handleRespond env store item).alerts =
          (linkPhase env item).2 ++ (writePhase env store item).2 := rfl
      have hw : (writePhase env store item).2 = [] := by
        simp [writePhase, h5, hu]
      rw [halt, hw, List.append_nil]
      exact linkPhase_no_updateError env item m

/-- C3, witness: responding to the report of user `u1` appends exactly
its acknowledgement notification; responding to the report without a
user appends none. -/
theorem respond_notification_witness :
    (handleRespond envW storeW itemW).store.notifications =
      storeW.notifications ++
        [("u1", { message := respMsg, timestamp := "2024-01-01T00:00:00.000Z",
                  read := false, type := "accident_response" })] ∧
    (handleRespond envW storeW itemNoUser).store.notifications =
      storeW.notifications :=
  ⟨(respond_notification envW storeW itemW).1 "u1" rfl (by decide) rfl rfl,
   ((respond_notification envW storeW itemNoUser).2 rfl).1⟩

/-- C4: the respond action's status write rewrites the stored record by
the single-field merge `status := "Help on way"`: records with a
different identifier are untouched, and the target record keeps every
field other than `status` unchanged. -/
theorem respond_status_single_field (env : Env) (store : Store)
    (item : ReportEntry) (hU : env.updateFails = none) :
    (handleRespond env store item).store.reports =
      updateStatusIn store.reports item.id ∧
    (∀ p ∈ store.reports, p.1 ≠ item.id →
      p ∈ (handleRespond env store item).store.reports) ∧
    ∀ p ∈ store.reports, p.1 = item.id →
      ∃ q ∈ (handleRespond env store item).store.reports,
        q.1 = p.1 ∧ q.2.status = "Help on way" ∧
        q.2.dataId = p.2.dataId ∧ q.2.location = p.2.location ∧
        q.2.severity = p.2.severity ∧
        q.2.accidentType = p.2.accidentType ∧
        q.2.vehiclesInvolved = p.2.vehiclesInvolved ∧
        q.2.casualties = p.2.casualties ∧
        q.2.timestamp = p.2.timestamp ∧ q.2.userId = p.2.userId := by
  have hre := respond_reports_eq env store item hU
  refine ⟨hre, ?_, ?_⟩
  · intro p hp hne
    rw [hre]
    have hm := List.mem_map_of_mem
      (fun r : String × ReportData =>
        if r.1 = item.id then (r.1, { r.2 with status := "Help on way" }) else r) hp
    simp only [if_neg hne] at hm
    exact hm
  · intro p hp heq
    refine ⟨(p.1, { p.2 with status := "Help on way" }), ?_,
      rfl, rfl, rfl, rfl, rfl, rfl, rfl, rfl, rfl, rfl⟩
    rw [hre]
    have hm := List.mem_map_of_mem
      (fun r : String × ReportData =>
        if r.1 = item.id then (r.1, { r.2 with status := "Help on way" }) else r) hp
    simp only [if_pos heq] at hm
    exact hm

/-- C4, witness: responding to `r1` leaves `r2` untouched and rewrites
`r1` with only its status changed. -/
theorem respond_status_single_field_witness :
    (handleRespond envW storeW itemW).store.reports =
      updateStatusIn storeW.reports itemW.id ∧
    (("r2", ({ status := "Pending", location := .malformed } : ReportData)) ∈
      (handleRespond envW storeW itemW).store.reports) ∧
    ∃ q ∈ (handleRespond envW storeW itemW).store.reports,
      q.1 = "r1" ∧ q.2.status = "Help on way" ∧
      q.2.dataId = none ∧ q.2.location = .coords 1 2 ∧
      q.2.severity = "" ∧ q.2.accidentType = "" ∧
      q.2.vehiclesInvolved = "" ∧ q.2.casualties = "" ∧
      q.2.timestamp = .tsNumber 100 ∧ q.2.userId = some "u1" := by
  obtain ⟨h1, h2, h3⟩ := respond_status_single_field envW storeW itemW rfl
  exact ⟨h1,
    h2 ("r2", { status := "Pending", location := .malformed })
      (by decide) (by decide),
    h3 ("r1", { status := "Pending", userId := some "u1",
                timestamp := .tsNumber 100, location := .coords 1 2 })
      (by decide) rfl⟩

/-- C5: when the report's location is missing or malformed, the
location-error alert is raised and no maps deep link is dispatched,
while the write phase still proceeds (with a successful oracle the
status merge is applied); moreover the store outcome of the action is
invariant under every change of the link-open oracle and of the
report's location, so neither a malformed location nor a failure to
open the link ever blocks the status and notification writes. -/
theorem respond_malformed_location (env : Env) (store : Store)
    (item : ReportEntry) :
    (locValid item.location = false →
      (handleRespond env store item).openedUrl = none ∧
      Alert.locationError ∈ (handleRespond env store item).alerts ∧
      (env.updateFails = none →
        (handleRespond env store item).store.reports =
          updateStatusIn store.reports item.id)) ∧
    ∀ fl loc,
      (handleRespond { env with linkOpenFails := fl } store
          { item with location := loc }).store =
        (handleRespond env store item).store := by
  constructor
  · intro hloc
    have hl : linkPhase env item = (none, [.locationError]) := by
      unfold linkPhase
      cases hc : item.location
      · rw [hc] at hloc
        simp [locValid] at hloc
      · rfl
      · rfl
    refine ⟨?_, ?_, fun hU => respond_reports_eq env store item hU⟩
    · show (linkPhase env item).1 = none
      rw [hl]
    · show Alert.locationError ∈
        (linkPhase env item).2 ++ (writePhase env store item).2
      rw [hl]
      simp
  · intro fl loc
    rfl

/-- C5, witness: a malformed-location report raises the location error,
dispatches no link and still gets its status written; a failing link
opener leaves the store outcome unchanged. -/
theorem respond_malformed_location_witness :
    (handleRespond envW storeW itemNoUser).openedUrl = none ∧
    Alert.locationError ∈ (handleRespond envW storeW itemNoUser).alerts ∧
    (handleRespond envW storeW itemNoUser).store.reports =
      updateStatusIn storeW.reports itemNoUser.id ∧
    (handleRespond { envW with linkOpenFails := some "no handler" } storeW
        { itemW with location := .absent }).store =
      (handleRespond envW storeW itemW).store := by
  obtain ⟨h1, h2⟩ := respond_malformed_location envW storeW itemNoUser
  obtain ⟨a, b, c⟩ := h1 (by decide)
  exact ⟨a, b, c rfl,
    (respond_malformed_location envW storeW itemW).2 (some "no handler") .absent⟩

/-- C6: whenever the status update fails, or the notification write is
attempted and fails, exactly one update-error alert is raised (the two
writes share one failure boundary), and a status update that succeeded
before the notification failure remains applied — no rollback. -/
theorem respond_single_error_report (env : Env) (store : Store)
    (item : ReportEntry)
    (h : env.updateFails.isSome = true ∨
      (userTruthy item.userId = true ∧ env.updateFails = none ∧
        env.addFails.isSome = true)) :
    countUpdateErrors (handleRespond env store item).alerts = 1 ∧
    (env.updateFails = none →
      (handleRespond env store item).store.reports =
        updateStatusIn store.reports item.id) := by
  refine ⟨?_, fun hU => respond_reports_eq env store item hU⟩
  have hlk : countUpdateErrors (linkPhase env item).2 = 0 := by
    unfold linkPhase countUpdateErrors
    cases item.location <;> cases env.linkOpenFails <;> simp
  have happ : ∀ xs ys : List Alert,
      countUpdateErrors (xs ++ ys) = countUpdateErrors xs + countUpdateErrors ys := by
    intro xs ys
    simp [countUpdateErrors, List.filter_append]
  have halt : (handleRespond env store item).alerts =
      (linkPhase env item).2 ++ (writePhase env store item).2 := rfl
  rw [halt, happ, hlk]
  rcases h with h | ⟨h1, h2, h3⟩
  · obtain ⟨m, hm⟩ := Option.isSome_iff_exists.mp h
    simp [writePhase, hm, countUpdateErrors]
  · obtain ⟨m, hm⟩ := Option.isSome_iff_exists.mp h3
    simp [writePhase, h1, h2, hm, countUpdateErrors]

/-- C6, witness: with the notification write failing after a successful
status update, exactly one update-error is raised and the status merge
remains applied. -/
theorem respond_single_error_report_witness :
    countUpdateErrors (handleRespond envAddFail storeW itemW).alerts = 1 ∧
    (handleRespond envAddFail storeW itemW).store.reports =
      updateStatusIn storeW.reports itemW.id := by
  obtain ⟨h1, h2⟩ := respond_single_error_report envAddFail storeW itemW
    (Or.inr ⟨by decide, rfl, rfl⟩)
  exact ⟨h1, h2 rfl⟩

/-- C8: responding twice to the same report leaves its status equal to
`"Help on way"` after each invocation (no toggling), and, when the
report carries a truthy `userId`, each invocation appends one
notification — two invocations append two. -/
theorem respond_twice (env1 env2 : Env) (store : Store) (item : ReportEntry)
    (h1 : env1.updateFails = none) (h1a : env1.addFails = none)
    (h2 : env2.updateFails = none) (h2a : env2.addFails = none)
    (hex : (statusOf store item.id).isSome = true) :
    statusOf (handleRespond env1 store item).store item.id =
      some "Help on way" ∧
    statusOf (handleRespond env2 (handleRespond env1 store item).store
        item).store item.id = some "Help on way" ∧
    (userTruthy item.userId = true →
      (handleRespond env2 (handleRespond env1 store item).store
          item).store.notifications.length =
        store.notifications.length + 2) := by
  have c1 := respond_statusOf env1 store item h1 hex
  have hex2 : (statusOf (handleRespond env1 store item).store item.id).isSome
      = true := by
    rw [c1]; rfl
  have c2 := respond_statusOf env2 (handleRespond env1 store item).store
    item h2 hex2
  refine ⟨c1, c2, ?_⟩
  intro hu
  rw [respond_notifications_append env2 _ item h2 h2a hu,
    respond_notifications_append env1 store item h1 h1a hu]
  simp

/-- C8, witness: two respond invocations on `r1`. -/
theorem respond_twice_witness :
    statusOf (handleRespond envW storeW itemW).store itemW.id =
      some "Help on way" ∧
    statusOf (handleRespond envW (handleRespond envW storeW itemW).store
        itemW).store itemW.id = some "Help on way" ∧
    (handleRespond envW (handleRespond envW storeW itemW).store
        itemW).store.notifications.length =
      storeW.notifications.length + 2 := by
  obtain ⟨h1, h2, h3⟩ := respond_twice envW envW storeW itemW rfl rfl rfl rfl
    (by decide)
  exact ⟨h1, h2, h3 (by decide)⟩

/-- C9: the notification write is attempted only after a successful
status update — when the status update fails, the store is entirely
unchanged, so in particular zero notification documents are created. -/
theorem respond_no_notification_on_failed_update (env : Env) (store : Store)
    (item : ReportEntry) (m : String) (h : env.updateFails = some m) :
    (handleRespond env store item).store.notifications =
      store.notifications ∧
    (handleRespond env store item).store = store := by
  have hst : (handleRespond env store item).store = store := by
    simp [handleRespond, writePhase, h]
  exact ⟨by rw [hst], hst⟩

/-- C9, witness: a failing status update creates no notification even
though the report carries a user. -/
theorem respond_no_notification_on_failed_update_witness :
    (handleRespond envUpdFail storeW itemW).store.notifications =
      storeW.notifications ∧
    (handleRespond envUpdFail storeW itemW).store = storeW :=
  respond_no_notification_on_failed_update envUpdFail storeW itemW
    "network down" rfl

/-- C10: a record whose stored data itself contains an `id` field is
published with that field's value as identifier — the data spread
follows the `id: docSnap.id` key and overwrites it — while a record
without such a field is published with the store-assigned identifier;
and the published list consists exactly of the entries so assembled
(the sort only reorders them). -/
theorem published_id_shadowing (now : Int) (d : DocSnap) :
    (∀ v, d.data.dataId = some v → (toEntry now d).id = v) ∧
    (d.data.dataId = none → (toEntry now d).id = d.id) ∧
    ∀ docs : List DocSnap,
      (processSnapshot now docs).Perm (docs.map (toEntry now)) := by
  refine ⟨?_, ?_, ?_⟩
  · intro v hv
    simp [toEntry, hv]
  · intro hv
    simp [toEntry, hv]
  · intro docs
    exact List.mergeSort_perm _ _

/-- C10, witness: the data's `id` key shadows the store identifier,
a plain record keeps the store identifier, and publishing permutes the
assembled entries. -/
theorem published_id_shadowing_witness :
    (toEntry 0 docShadow).id = "inner-id" ∧
    (toEntry 0 ⟨"plain", {}⟩).id = "plain" ∧
    (processSnapshot 0 docsW).Perm (docsW.map (toEntry 0)) :=
  ⟨(published_id_shadowing 0 docShadow).1 "inner-id" rfl,
   (published_id_shadowing 0 ⟨"plain", {}⟩).2.1 rfl,
   (published_id_shadowing 0 docShadow).2.2 docsW⟩

end AccidentTracker
